import Mathlib

/-!
Verification of the OpenID Connect relying-party views of `django-oidc-rp`
(`src/oidc_rp/views.py`) via a shallow embedding.

The module defines three request-scoped operations:

* `OIDCAuthRequestView.get`  — builds the authorization redirect and seeds the
  session with the anti-forgery artifacts (`state`, optionally `nonce`);
* `OIDCAuthCallbackView.get` — validates the provider callback and either
  establishes a local session, redirects to the failure URL, or raises
  `SuspiciousOperation` on a state mismatch;
* `OIDCEndSessionView`       — ends the local session (its method body is absent
  from the source file, which ends inside the class docstring; it is modelled
  from the specification, see below).

Randomness (`get_random_string`) and the pluggable verifier
(`django.contrib.auth.authenticate`) are external collaborators: the random
values and the verifier function are taken as explicit arguments, so theorems
quantify over them.  Machine-level details of Django request objects are
reduced to the fields the code reads: the GET query parameters `code` and
`state`, and the session store entries `oidc_auth_state`, `oidc_auth_nonce`,
plus the logged-in user written by `auth.login`.
-/

namespace OidcRp

/-- Process-wide configuration, mirroring `oidc_rp.conf.settings` as used by
`views.py` (plus the end-session keys named by the specification's
configuration surface). -/
structure Settings where
  USE_NONCE : Bool
  SCOPES : String
  CLIENT_ID : String
  STATE_LENGTH : Nat
  NONCE_LENGTH : Nat
  PROVIDER_AUTHORIZATION_ENDPOINT : String
  PROVIDER_END_SESSION_ENDPOINT : Option String
  AUTHENTICATION_REDIRECT_URI : String
  AUTHENTICATION_FAILURE_REDIRECT_URI : String
  POST_LOGOUT_REDIRECT_URI : String
  deriving DecidableEq, Repr

/-- A local principal as returned by the pluggable verifier
(`auth.authenticate`): opaque except for an identifier and the `is_active`
flag consulted at `views.py:101`. -/
structure User where
  uid : Nat
  is_active : Bool
  deriving DecidableEq, Repr

/-- The per-browser session store, restricted to the keys this module touches:
`oidc_auth_state`, `oidc_auth_nonce` (both `None` when absent, matching
`session.get(..., None)` / `session.pop(..., None)`), and the authenticated
user installed by `auth.login`. -/
structure Session where
  oidc_auth_state : Option String
  oidc_auth_nonce : Option String
  user : Option User
  deriving DecidableEq, Repr

/-- Python truthiness of an optional string: `None` and the empty string are
falsy, any other string is truthy. -/
def truthy : Option String → Bool
  | none => false
  | some s => !(s == "")

/-- The callback request's GET parameters, restricted to the two keys the view
reads; `none` models key absence (`'code' in callback_params` is key
membership). -/
structure CallbackParams where
  code : Option String
  state : Option String
  deriving DecidableEq, Repr

/-- Terminal outcome of a view: an `HttpResponseRedirect(url)` or a raised
`SuspiciousOperation(msg)`. -/
inductive HttpResult where
  | redirect (url : String)
  | suspiciousOperation (msg : String)
  deriving DecidableEq, Repr

/-- `true` exactly on the `suspiciousOperation` constructor. -/
def HttpResult.isSuspicious : HttpResult → Bool
  | HttpResult.redirect _ => false
  | HttpResult.suspiciousOperation _ => true

/-- Full observable outcome of one execution of the callback view: the HTTP
result, the post-state of the session store, the nonce argument passed to the
verifier (`none` when the verifier was never invoked), and the user passed to
`auth.login` (`none` when no session was established). -/
structure CallbackOutcome where
  result : HttpResult
  session : Session
  verifierCalledWith : Option (Option String)
  loggedIn : Option User
  deriving Repr

/-- Shallow embedding of `OIDCAuthCallbackView.get` (`src/oidc_rp/views.py`,
lines 75–105).  `authenticate` is the pluggable verifier, receiving the nonce
keyword argument and the request's GET parameters (the request context). -/
def OIDCAuthCallbackView.get (cfg : Settings)
    (authenticate : Option String → CallbackParams → Option User)
    (callback_params : CallbackParams) (session0 : Session) : CallbackOutcome :=
  let state := session0.oidc_auth_state
  let nonce := session0.oidc_auth_nonce
  let session := { session0 with oidc_auth_nonce := none }
  if ((truthy nonce && cfg.USE_NONCE) || !cfg.USE_NONCE)
      && (callback_params.code.isSome && callback_params.state.isSome)
      && truthy state then
    if callback_params.state ≠ state then
      { result := HttpResult.suspiciousOperation
          "Invalid OpenID Connect callback state value",
        session := session, verifierCalledWith := none, loggedIn := none }
    else
      match authenticate nonce callback_params with
      | some user =>
        if user.is_active then
          { result := HttpResult.redirect cfg.AUTHENTICATION_REDIRECT_URI,
            session := { session with user := some user },
            verifierCalledWith := some nonce, loggedIn := some user }
        else
          { result := HttpResult.redirect cfg.AUTHENTICATION_FAILURE_REDIRECT_URI,
            session := session, verifierCalledWith := some nonce, loggedIn := none }
      | none =>
        { result := HttpResult.redirect cfg.AUTHENTICATION_FAILURE_REDIRECT_URI,
          session := session, verifierCalledWith := some nonce, loggedIn := none }
  else
    { result := HttpResult.redirect cfg.AUTHENTICATION_FAILURE_REDIRECT_URI,
      session := session, verifierCalledWith := none, loggedIn := none }

/-- An execution "proceeds past the preconditions" when it either reaches the
state-equality check and raises, or invokes the verifier. -/
def callbackProceeds (o : CallbackOutcome) : Bool :=
  o.verifierCalledWith.isSome || o.result.isSuspicious

/-- Hexadecimal digit character (uppercase), as produced by Python's
percent-encoding. -/
def hexDigitChar (n : Nat) : Char :=
  if n < 10 then Char.ofNat (48 + n) else Char.ofNat (55 + n)

/-- `%XX` percent-escape of one byte value. -/
def percentEncodeByte (b : Nat) : String :=
  String.mk [Char.ofNat 37, hexDigitChar (b / 16), hexDigitChar (b % 16)]

/-- UTF-8 byte sequence of a character, computed from its code point. -/
def utf8Bytes (c : Char) : List Nat :=
  let n := c.toNat
  if n < 128 then [n]
  else if n < 2048 then [192 + n / 64, 128 + n % 64]
  else if n < 65536 then [224 + n / 4096, 128 + (n / 64) % 64, 128 + n % 64]
  else [240 + n / 262144, 128 + (n / 4096) % 64, 128 + (n / 64) % 64, 128 + n % 64]

/-- Characters percent-encoding leaves untouched: ASCII letters, digits and
`_ . - ~` (the always-safe set of Python's `urllib` quoting). -/
def isUrlSafeCodePoint (n : Nat) : Bool :=
  (48 ≤ n && n ≤ 57) || (65 ≤ n && n ≤ 90) || (97 ≤ n && n ≤ 122) ||
    n == 45 || n == 46 || n == 95 || n == 126

/-- `quote_plus` as used by `django.utils.http.urlencode` on each key and
value: safe characters kept, space mapped to `+`, every other character
percent-escaped byte by byte. -/
def quotePlus (s : String) : String :=
  String.join (s.toList.map (fun c =>
    if isUrlSafeCodePoint c.toNat then String.singleton c
    else if c.toNat == 32 then String.singleton (Char.ofNat 43)
    else String.join ((utf8Bytes c).map percentEncodeByte)))

/-- `django.utils.http.urlencode` over an ordered parameter list:
`k1=v1&k2=v2&…` with each key and value quoted. -/
def urlencode (params : List (String × String)) : String :=
  String.intercalate (String.singleton (Char.ofNat 38))
    (params.map (fun p =>
      quotePlus p.1 ++ String.singleton (Char.ofNat 61) ++ quotePlus p.2))

/-- Observable outcome of the authorization-request view: the redirect URL,
the parameter list it was built from (in insertion order), and the post-state
of the session store. -/
structure AuthRequestOutcome where
  redirect_url : String
  authentication_request_params : List (String × String)
  session : Session
  deriving Repr

/-- Shallow embedding of `OIDCAuthRequestView.get` (`src/oidc_rp/views.py`,
lines 34–60).  `callback_uri` is `request.build_absolute_uri(reverse(...))`;
`state` and `nonce` are the values drawn by `get_random_string` (randomness is
an external collaborator, so they are arguments). -/
def OIDCAuthRequestView.get (cfg : Settings) (callback_uri : String)
    (state nonce : String) (session0 : Session) : AuthRequestOutcome :=
  let params0 := [("scope", cfg.SCOPES), ("response_type", "code"),
    ("client_id", cfg.CLIENT_ID), ("redirect_uri", callback_uri),
    ("state", state)]
  let params := if cfg.USE_NONCE then params0 ++ [("nonce", nonce)] else params0
  let session1 :=
    if cfg.USE_NONCE then { session0 with oidc_auth_nonce := some nonce }
    else session0
  let session2 := { session1 with oidc_auth_state := some state }
  { redirect_url :=
      cfg.PROVIDER_AUTHORIZATION_ENDPOINT ++ "?" ++ urlencode params,
    authentication_request_params := params,
    session := session2 }

/-- Modelled from the spec: the body of `OIDCEndSessionView.get` is missing
from `src/oidc_rp/views.py` (the file ends inside the class docstring, line
115).  Spec §4.3: "clear local session/authentication state; if an end-session
endpoint is configured, redirect to it with the post-logout redirect URI (and
ID-token hint if available) as parameters; otherwise redirect directly to the
post-logout target."  Clearing the session is modelled as a flush of all
modelled keys; `id_token_hint` is the optionally retained hint. -/
def OIDCEndSessionView.get (cfg : Settings) (id_token_hint : Option String)
    (_session0 : Session) : HttpResult × Session :=
  let cleared : Session :=
    { oidc_auth_state := none, oidc_auth_nonce := none, user := none }
  match cfg.PROVIDER_END_SESSION_ENDPOINT with
  | some endpoint =>
    let params := [("post_logout_redirect_uri", cfg.POST_LOGOUT_REDIRECT_URI)]
      ++ (match id_token_hint with
          | some t => [("id_token_hint", t)]
          | none => [])
    (HttpResult.redirect (endpoint ++ "?" ++ urlencode params), cleared)
  | none => (HttpResult.redirect cfg.POST_LOGOUT_REDIRECT_URI, cleared)

/-- The combined precondition in the specification's wording (§4.2 step 4):
`(nonce present OR nonce-verification disabled) AND (code and state both
present in callback) AND (session state present)`, where "present" for a
session value means retrievable and non-empty (Python truthiness). -/
def combinedPrecondition (cfg : Settings) (cp : CallbackParams)
    (s : Session) : Bool :=
  (truthy s.oidc_auth_nonce || !cfg.USE_NONCE)
    && (cp.code.isSome && cp.state.isSome)
    && truthy s.oidc_auth_state

/-- Concrete configuration used to instantiate theorems with hypotheses. -/
def cfgNonceOn : Settings :=
  { USE_NONCE := true, SCOPES := "openid email", CLIENT_ID := "client-1",
    STATE_LENGTH := 32, NONCE_LENGTH := 32,
    PROVIDER_AUTHORIZATION_ENDPOINT := "https://op.example/a/authorize",
    PROVIDER_END_SESSION_ENDPOINT := some "https://op.example/a/end-session",
    AUTHENTICATION_REDIRECT_URI := "/home",
    AUTHENTICATION_FAILURE_REDIRECT_URI := "/fail",
    POST_LOGOUT_REDIRECT_URI := "/bye" }

/-- Same configuration with nonce verification disabled. -/
def cfgNonceOff : Settings :=
  { cfgNonceOn with USE_NONCE := false }

/-- Concrete session holding both artifacts. -/
def sessionBoth : Session :=
  { oidc_auth_state := some "abc123", oidc_auth_nonce := some "n1", user := none }

/-- Concrete session holding only the state artifact. -/
def sessionStateOnly : Session :=
  { oidc_auth_state := some "abc123", oidc_auth_nonce := none, user := none }

/-- Concrete empty session. -/
def sessionEmpty : Session :=
  { oidc_auth_state := none, oidc_auth_nonce := none, user := none }

/-- Concrete verifier that accepts and returns an active principal. -/
def verifierActive : Option String → CallbackParams → Option User :=
  fun _ _ => some { uid := 7, is_active := true }

/-- Concrete callback parameters with a code and the matching state. -/
def cpGood : CallbackParams := { code := some "XYZ", state := some "abc123" }

/-- Concrete callback parameters with a code and a forged state. -/
def cpForged : CallbackParams := { code := some "XYZ", state := some "WRONG" }

/-- The boolean guard written at `views.py:91-92` equals the specification's
combined precondition: `(nonce and USE_NONCE) or not USE_NONCE` simplifies to
`nonce or not USE_NONCE`. -/
theorem code_guard_eq_combinedPrecondition (cfg : Settings)
    (cp : CallbackParams) (s : Session) :
    (((truthy s.oidc_auth_nonce && cfg.USE_NONCE) || !cfg.USE_NONCE)
        && (cp.code.isSome && cp.state.isSome)
        && truthy s.oidc_auth_state)
      = combinedPrecondition cfg cp s := by
  unfold combinedPrecondition
  cases cfg.USE_NONCE <;> simp

/-- Every execution of the callback view leaves the session without a nonce
(the `session.pop` at `views.py:86` happens before any branching). -/
theorem callback_pops_nonce (cfg : Settings)
    (authenticate : Option String → CallbackParams → Option User)
    (cp : CallbackParams) (s : Session) :
    (OIDCAuthCallbackView.get cfg authenticate cp s).session.oidc_auth_nonce
      = none := by
  unfold OIDCAuthCallbackView.get
  dsimp only
  repeat' split
  all_goals rfl

/-- When the combined precondition fails, the callback is the failure redirect
with no verifier call, no login, and only the nonce removed from the session. -/
theorem callback_guard_false (cfg : Settings)
    (authenticate : Option String → CallbackParams → Option User)
    (cp : CallbackParams) (s : Session)
    (h : combinedPrecondition cfg cp s = false) :
    OIDCAuthCallbackView.get cfg authenticate cp s =
      { result := HttpResult.redirect cfg.AUTHENTICATION_FAILURE_REDIRECT_URI,
        session := { s with oidc_auth_nonce := none },
        verifierCalledWith := none, loggedIn := none } := by
  have hg := code_guard_eq_combinedPrecondition cfg cp s
  unfold OIDCAuthCallbackView.get
  dsimp only
  rw [hg, h]
  simp

/-- When the combined precondition holds and the callback state differs from
the session state, the callback raises `SuspiciousOperation`. -/
theorem callback_guard_true_mismatch (cfg : Settings)
    (authenticate : Option String → CallbackParams → Option User)
    (cp : CallbackParams) (s : Session)
    (h : combinedPrecondition cfg cp s = true)
    (hm : cp.state ≠ s.oidc_auth_state) :
    OIDCAuthCallbackView.get cfg authenticate cp s =
      { result := HttpResult.suspiciousOperation
          "Invalid OpenID Connect callback state value",
        session := { s with oidc_auth_nonce := none },
        verifierCalledWith := none, loggedIn := none } := by
  have hg := code_guard_eq_combinedPrecondition cfg cp s
  unfold OIDCAuthCallbackView.get
  dsimp only
  rw [hg, h]
  simp [hm]

/-- When the combined precondition holds and the callback state equals the
session state, the callback invokes the verifier with the popped nonce and its
outcome is decided by the returned principal. -/
theorem callback_guard_true_match (cfg : Settings)
    (authenticate : Option String → CallbackParams → Option User)
    (cp : CallbackParams) (s : Session)
    (h : combinedPrecondition cfg cp s = true)
    (hm : cp.state = s.oidc_auth_state) :
    OIDCAuthCallbackView.get cfg authenticate cp s =
      (match authenticate s.oidc_auth_nonce cp with
       | some user =>
         if user.is_active then
           { result := HttpResult.redirect cfg.AUTHENTICATION_REDIRECT_URI,
             session := { s with oidc_auth_nonce := none, user := some user },
             verifierCalledWith := some s.oidc_auth_nonce,
             loggedIn := some user }
         else
           { result := HttpResult.redirect
               cfg.AUTHENTICATION_FAILURE_REDIRECT_URI,
             session := { s with oidc_auth_nonce := none },
             verifierCalledWith := some s.oidc_auth_nonce, loggedIn := none }
       | none =>
         { result := HttpResult.redirect
             cfg.AUTHENTICATION_FAILURE_REDIRECT_URI,
           session := { s with oidc_auth_nonce := none },
           verifierCalledWith := some s.oidc_auth_nonce, loggedIn := none }) := by
  have hg := code_guard_eq_combinedPrecondition cfg cp s
  unfold OIDCAuthCallbackView.get
  dsimp only
  rw [hg, h]
  simp [hm]

/-- The verifier argument record is either empty (verifier not invoked) or the
pre-state session nonce. -/
theorem callback_verifier_arg (cfg : Settings)
    (authenticate : Option String → CallbackParams → Option User)
    (cp : CallbackParams) (s : Session) :
    (OIDCAuthCallbackView.get cfg authenticate cp s).verifierCalledWith = none
    ∨ (OIDCAuthCallbackView.get cfg authenticate cp s).verifierCalledWith
        = some s.oidc_auth_nonce := by
  unfold OIDCAuthCallbackView.get
  dsimp only
  repeat' split
  all_goals simp

/-- C8: the callback view never removes or modifies the session-stored state:
after any execution, `oidc_auth_state` in the session store equals its value
before the callback ran. -/
theorem C8_session_state_preserved (cfg : Settings)
    (authenticate : Option String → CallbackParams → Option User)
    (cp : CallbackParams) (s : Session) :
    (OIDCAuthCallbackView.get cfg authenticate cp s).session.oidc_auth_state
      = s.oidc_auth_state := by
  unfold OIDCAuthCallbackView.get
  dsimp only
  repeat' split
  all_goals rfl

/-- C1: when the combined precondition holds and the callback's `state`
parameter differs from the session-stored state, the callback raises the
distinct `SuspiciousOperation` (not a failure redirect), never establishes a
session, and leaves the logged-in user untouched — regardless of the verifier
(hence of an otherwise-valid `code`). -/
theorem C1_state_mismatch_raises_suspicious (cfg : Settings)
    (authenticate : Option String → CallbackParams → Option User)
    (cp : CallbackParams) (s : Session)
    (hpre : combinedPrecondition cfg cp s = true)
    (hmis : cp.state ≠ s.oidc_auth_state) :
    (OIDCAuthCallbackView.get cfg authenticate cp s).result
      = HttpResult.suspiciousOperation
          "Invalid OpenID Connect callback state value"
    ∧ (OIDCAuthCallbackView.get cfg authenticate cp s).loggedIn = none
    ∧ (OIDCAuthCallbackView.get cfg authenticate cp s).session.user
        = s.user := by
  rw [callback_guard_true_mismatch cfg authenticate cp s hpre hmis]
  exact ⟨rfl, rfl, rfl⟩

/-- C2: the callback proceeds past its preconditions (reaches the state check
or the verifier) exactly when `(nonce truthy OR nonce disabled) AND (code and
state present) AND (session state truthy)`; when this combined condition is
false it redirects to the failure URL without invoking the verifier or
establishing a session. -/
theorem C2_combined_precondition_gate (cfg : Settings)
    (authenticate : Option String → CallbackParams → Option User)
    (cp : CallbackParams) (s : Session) :
    (callbackProceeds (OIDCAuthCallbackView.get cfg authenticate cp s)
        = combinedPrecondition cfg cp s)
    ∧ (combinedPrecondition cfg cp s = false →
        (OIDCAuthCallbackView.get cfg authenticate cp s).result
            = HttpResult.redirect cfg.AUTHENTICATION_FAILURE_REDIRECT_URI
        ∧ (OIDCAuthCallbackView.get cfg authenticate cp s).verifierCalledWith
            = none
        ∧ (OIDCAuthCallbackView.get cfg authenticate cp s).loggedIn = none
        ∧ (OIDCAuthCallbackView.get cfg authenticate cp s).session.user
            = s.user) := by
  constructor
  · cases hg : combinedPrecondition cfg cp s
    · rw [callback_guard_false cfg authenticate cp s hg]
      rfl
    · by_cases hm : cp.state = s.oidc_auth_state
      · rw [callback_guard_true_match cfg authenticate cp s hg hm]
        cases authenticate s.oidc_auth_nonce cp with
        | none => rfl
        | some u =>
          by_cases hu : u.is_active = true <;>
            simp [hu, callbackProceeds, HttpResult.isSuspicious]
      · rw [callback_guard_true_mismatch cfg authenticate cp s hg hm]
        rfl
  · intro hg
    rw [callback_guard_false cfg authenticate cp s hg]
    exact ⟨rfl, rfl, rfl, rfl⟩

/-- C3: every execution removes `oidc_auth_nonce` from the session store,
whatever the outcome; consequently, with nonce verification enabled, a second
callback in the same session fails the nonce-presence precondition and cannot
succeed (failure redirect, no session established). -/
theorem C3_nonce_removed_and_single_use (cfg : Settings)
    (auth1 auth2 : Option String → CallbackParams → Option User)
    (cp1 cp2 : CallbackParams) (s : Session) :
    (OIDCAuthCallbackView.get cfg auth1 cp1 s).session.oidc_auth_nonce = none
    ∧ (cfg.USE_NONCE = true →
        combinedPrecondition cfg cp2
            (OIDCAuthCallbackView.get cfg auth1 cp1 s).session = false
        ∧ (OIDCAuthCallbackView.get cfg auth2 cp2
              (OIDCAuthCallbackView.get cfg auth1 cp1 s).session).result
            = HttpResult.redirect cfg.AUTHENTICATION_FAILURE_REDIRECT_URI
        ∧ (OIDCAuthCallbackView.get cfg auth2 cp2
              (OIDCAuthCallbackView.get cfg auth1 cp1 s).session).loggedIn
            = none) := by
  refine ⟨callback_pops_nonce cfg auth1 cp1 s, fun hU => ?_⟩
  have hpre : combinedPrecondition cfg cp2
      (OIDCAuthCallbackView.get cfg auth1 cp1 s).session = false := by
    unfold combinedPrecondition
    rw [callback_pops_nonce cfg auth1 cp1 s, hU]
    simp [truthy]
  refine ⟨hpre, ?_, ?_⟩ <;>
    rw [callback_guard_false cfg auth2 cp2
      (OIDCAuthCallbackView.get cfg auth1 cp1 s).session hpre]

/-- C4: when no state value is present in the session (absent or empty), the
callback redirects to the failure URL and never raises `SuspiciousOperation`,
even if the callback carries `code` and `state` parameters; no session is
established. -/
theorem C4_missing_session_state_redirects (cfg : Settings)
    (authenticate : Option String → CallbackParams → Option User)
    (cp : CallbackParams) (s : Session)
    (hstate : truthy s.oidc_auth_state = false) :
    (OIDCAuthCallbackView.get cfg authenticate cp s).result
        = HttpResult.redirect cfg.AUTHENTICATION_FAILURE_REDIRECT_URI
    ∧ (OIDCAuthCallbackView.get cfg authenticate cp s).result.isSuspicious
        = false
    ∧ (OIDCAuthCallbackView.get cfg authenticate cp s).loggedIn = none := by
  have hg : combinedPrecondition cfg cp s = false := by
    unfold combinedPrecondition
    simp [hstate]
  rw [callback_guard_false cfg authenticate cp s hg]
  exact ⟨rfl, rfl, rfl⟩

/-- C5: the authorization redirect URL is the configured endpoint followed by
the URL-encoded parameter list, which consists of exactly the configured
scope, `response_type=code`, the configured client identifier, the absolute
callback URI, and the `state` value now stored in the session; a `nonce`
parameter appears iff nonce mode is enabled, and then it equals the
session-stored nonce. -/
theorem C5_auth_request_url_construction (cfg : Settings)
    (callback_uri state nonce : String) (s : Session) :
    (OIDCAuthRequestView.get cfg callback_uri state nonce s).redirect_url
        = cfg.PROVIDER_AUTHORIZATION_ENDPOINT ++ "?" ++ urlencode
            (OIDCAuthRequestView.get cfg callback_uri state nonce
              s).authentication_request_params
    ∧ (OIDCAuthRequestView.get cfg callback_uri state nonce
          s).authentication_request_params
        = [("scope", cfg.SCOPES), ("response_type", "code"),
           ("client_id", cfg.CLIENT_ID), ("redirect_uri", callback_uri),
           ("state", state)]
          ++ (if cfg.USE_NONCE then [("nonce", nonce)] else [])
    ∧ (OIDCAuthRequestView.get cfg callback_uri state nonce
          s).session.oidc_auth_state = some state
    ∧ (cfg.USE_NONCE = true →
        (OIDCAuthRequestView.get cfg callback_uri state nonce
            s).session.oidc_auth_nonce = some nonce)
    ∧ ("nonce" ∈ ((OIDCAuthRequestView.get cfg callback_uri state nonce
          s).authentication_request_params).map Prod.fst
        ↔ cfg.USE_NONCE = true) := by
  unfold OIDCAuthRequestView.get
  cases hU : cfg.USE_NONCE <;> simp [hU]

/-- C6: with nonce verification disabled, a callback carrying `code` and a
`state` matching the (truthy) session state succeeds when the verifier returns
an active principal — even though no nonce is present in the session: it
redirects to the success URL and establishes the session for that principal. -/
theorem C6_nonce_disabled_can_succeed (cfg : Settings)
    (authenticate : Option String → CallbackParams → Option User)
    (cp : CallbackParams) (s : Session) (u : User)
    (hU : cfg.USE_NONCE = false)
    (hnon : s.oidc_auth_nonce = none)
    (hcode : cp.code.isSome = true)
    (hst : cp.state = s.oidc_auth_state)
    (hsts : truthy s.oidc_auth_state = true)
    (hauth : authenticate none cp = some u)
    (hact : u.is_active = true) :
    (OIDCAuthCallbackView.get cfg authenticate cp s).result
        = HttpResult.redirect cfg.AUTHENTICATION_REDIRECT_URI
    ∧ (OIDCAuthCallbackView.get cfg authenticate cp s).loggedIn = some u
    ∧ (OIDCAuthCallbackView.get cfg authenticate cp s).session.user
        = some u := by
  have hps : cp.state.isSome = true := by
    rw [hst]
    cases h : s.oidc_auth_state
    · rw [h] at hsts
      simp [truthy] at hsts
    · rfl
  have hg : combinedPrecondition cfg cp s = true := by
    unfold combinedPrecondition
    simp [hU, hcode, hps, hsts]
  rw [callback_guard_true_match cfg authenticate cp s hg hst, hnon, hauth]
  simp [hact]

/-- C7: past the preconditions and the state equality check, the callback
establishes a session and redirects to the success URL exactly when the
verifier returns an active principal; if the verifier returns no principal or
an inactive one, it redirects to the failure URL with no session established. -/
theorem C7_principal_gating (cfg : Settings)
    (authenticate : Option String → CallbackParams → Option User)
    (cp : CallbackParams) (s : Session)
    (hpre : combinedPrecondition cfg cp s = true)
    (hmatch : cp.state = s.oidc_auth_state) :
    (∀ u : User, authenticate s.oidc_auth_nonce cp = some u →
      u.is_active = true →
      (OIDCAuthCallbackView.get cfg authenticate cp s).result
          = HttpResult.redirect cfg.AUTHENTICATION_REDIRECT_URI
      ∧ (OIDCAuthCallbackView.get cfg authenticate cp s).loggedIn = some u
      ∧ (OIDCAuthCallbackView.get cfg authenticate cp s).session.user
          = some u)
    ∧ (¬ (∃ u : User, authenticate s.oidc_auth_nonce cp = some u
          ∧ u.is_active = true) →
      (OIDCAuthCallbackView.get cfg authenticate cp s).result
          = HttpResult.redirect cfg.AUTHENTICATION_FAILURE_REDIRECT_URI
      ∧ (OIDCAuthCallbackView.get cfg authenticate cp s).loggedIn = none
      ∧ (OIDCAuthCallbackView.get cfg authenticate cp s).session.user
          = s.user) := by
  rw [callback_guard_true_match cfg authenticate cp s hpre hmatch]
  constructor
  · intro u hu hact
    rw [hu]
    simp [hact]
  · intro hno
    cases ha : authenticate s.oidc_auth_nonce cp with
    | none => simp
    | some u =>
      have hact : u.is_active = false := by
        cases hb : u.is_active
        · rfl
        · exact absurd ⟨u, ha, hb⟩ hno
      simp [hact]

/-- C9: the end-session operation clears the local session and authentication
state and redirects: to the OP's end-session endpoint with the post-logout
redirect URI and (if available) the ID-token hint as parameters when an
endpoint is configured, otherwise directly to the post-logout target. -/
theorem C9_end_session_clears_and_redirects (cfg : Settings)
    (id_token_hint : Option String) (s : Session) :
    ((OIDCEndSessionView.get cfg id_token_hint s).2.user = none
      ∧ (OIDCEndSessionView.get cfg id_token_hint s).2.oidc_auth_state = none
      ∧ (OIDCEndSessionView.get cfg id_token_hint s).2.oidc_auth_nonce
          = none)
    ∧ (∀ ep, cfg.PROVIDER_END_SESSION_ENDPOINT = some ep →
        (OIDCEndSessionView.get cfg id_token_hint s).1
          = HttpResult.redirect (ep ++ "?" ++ urlencode
              ([("post_logout_redirect_uri", cfg.POST_LOGOUT_REDIRECT_URI)]
                ++ (match id_token_hint with
                    | some t => [("id_token_hint", t)]
                    | none => []))))
    ∧ (cfg.PROVIDER_END_SESSION_ENDPOINT = none →
        (OIDCEndSessionView.get cfg id_token_hint s).1
          = HttpResult.redirect cfg.POST_LOGOUT_REDIRECT_URI) := by
  unfold OIDCEndSessionView.get
  cases h : cfg.PROVIDER_END_SESSION_ENDPOINT <;> simp [h]

/-- C10: even with nonce verification disabled, the callback removes any value
stored under the nonce session key, any invocation of the verifier receives
exactly the popped value (possibly `none`), and when the callback passes the
preconditions with a matching state the verifier is indeed invoked with that
popped value — a stale nonce is consumed and forwarded, not ignored. -/
theorem C10_stale_nonce_popped_and_forwarded (cfg : Settings)
    (authenticate : Option String → CallbackParams → Option User)
    (cp : CallbackParams) (s : Session)
    (hU : cfg.USE_NONCE = false) :
    (OIDCAuthCallbackView.get cfg authenticate cp s).session.oidc_auth_nonce
        = none
    ∧ (∀ v, (OIDCAuthCallbackView.get cfg authenticate cp s).verifierCalledWith
          = some v → v = s.oidc_auth_nonce)
    ∧ (cp.code.isSome = true → cp.state = s.oidc_auth_state →
        truthy s.oidc_auth_state = true →
        (OIDCAuthCallbackView.get cfg authenticate cp s).verifierCalledWith
          = some s.oidc_auth_nonce) := by
  refine ⟨callback_pops_nonce cfg authenticate cp s, ?_, ?_⟩
  · intro v hv
    rcases callback_verifier_arg cfg authenticate cp s with h | h <;>
      rw [h] at hv
    · exact absurd hv (by simp)
    · exact (Option.some_inj.mp hv).symm
  · intro hcode hst hsts
    have hps : cp.state.isSome = true := by
      rw [hst]
      cases h : s.oidc_auth_state
      · rw [h] at hsts
        simp [truthy] at hsts
      · rfl
    have hg : combinedPrecondition cfg cp s = true := by
      unfold combinedPrecondition
      simp [hU, hcode, hps, hsts]
    rw [callback_guard_true_match cfg authenticate cp s hg hst]
    cases authenticate s.oidc_auth_nonce cp with
    | none => rfl
    | some u =>
      by_cases hb : u.is_active = true <;> simp [hb]

/-- Witness for C1: a concrete forged-state callback (nonce enabled, both
artifacts seeded, valid code, active-principal verifier) raises the
suspicious-operation result and establishes no session. -/
theorem C1_witness :
    (OIDCAuthCallbackView.get cfgNonceOn verifierActive cpForged
        sessionBoth).result
      = HttpResult.suspiciousOperation
          "Invalid OpenID Connect callback state value"
    ∧ (OIDCAuthCallbackView.get cfgNonceOn verifierActive cpForged
        sessionBoth).loggedIn = none
    ∧ (OIDCAuthCallbackView.get cfgNonceOn verifierActive cpForged
        sessionBoth).session.user = sessionBoth.user :=
  C1_state_mismatch_raises_suspicious cfgNonceOn verifierActive cpForged
    sessionBoth (by decide) (by decide)

/-- Witness for C4: a concrete callback carrying code and state against an
empty session redirects to the failure URL and is not a suspicious result. -/
theorem C4_witness :
    (OIDCAuthCallbackView.get cfgNonceOn verifierActive cpGood
        sessionEmpty).result
      = HttpResult.redirect cfgNonceOn.AUTHENTICATION_FAILURE_REDIRECT_URI
    ∧ (OIDCAuthCallbackView.get cfgNonceOn verifierActive cpGood
        sessionEmpty).result.isSuspicious = false
    ∧ (OIDCAuthCallbackView.get cfgNonceOn verifierActive cpGood
        sessionEmpty).loggedIn = none :=
  C4_missing_session_state_redirects cfgNonceOn verifierActive cpGood
    sessionEmpty (by decide)

/-- Witness for C6: with nonce verification disabled and no session nonce, a
concrete matching callback succeeds with the active principal returned by the
verifier. -/
theorem C6_witness :
    (OIDCAuthCallbackView.get cfgNonceOff verifierActive cpGood
        sessionStateOnly).result
      = HttpResult.redirect cfgNonceOff.AUTHENTICATION_REDIRECT_URI
    ∧ (OIDCAuthCallbackView.get cfgNonceOff verifierActive cpGood
        sessionStateOnly).loggedIn = some { uid := 7, is_active := true }
    ∧ (OIDCAuthCallbackView.get cfgNonceOff verifierActive cpGood
        sessionStateOnly).session.user
        = some { uid := 7, is_active := true } :=
  C6_nonce_disabled_can_succeed cfgNonceOff verifierActive cpGood
    sessionStateOnly { uid := 7, is_active := true } (by decide) (by decide)
    (by decide) (by decide) (by decide) (by decide) (by decide)

/-- Witness for C7: at a concrete matching callback, the success and failure
sides of the principal gating hold for the active-principal verifier. -/
theorem C7_witness :
    (∀ u : User, verifierActive sessionBoth.oidc_auth_nonce cpGood = some u →
      u.is_active = true →
      (OIDCAuthCallbackView.get cfgNonceOn verifierActive cpGood
          sessionBoth).result
          = HttpResult.redirect cfgNonceOn.AUTHENTICATION_REDIRECT_URI
      ∧ (OIDCAuthCallbackView.get cfgNonceOn verifierActive cpGood
          sessionBoth).loggedIn = some u
      ∧ (OIDCAuthCallbackView.get cfgNonceOn verifierActive cpGood
          sessionBoth).session.user = some u)
    ∧ (¬ (∃ u : User, verifierActive sessionBoth.oidc_auth_nonce cpGood
          = some u ∧ u.is_active = true) →
      (OIDCAuthCallbackView.get cfgNonceOn verifierActive cpGood
          sessionBoth).result
          = HttpResult.redirect cfgNonceOn.AUTHENTICATION_FAILURE_REDIRECT_URI
      ∧ (OIDCAuthCallbackView.get cfgNonceOn verifierActive cpGood
          sessionBoth).loggedIn = none
      ∧ (OIDCAuthCallbackView.get cfgNonceOn verifierActive cpGood
          sessionBoth).session.user = sessionBoth.user) :=
  C7_principal_gating cfgNonceOn verifierActive cpGood sessionBoth
    (by decide) (by decide)

/-- Witness for C10: with nonce verification disabled, a concrete callback on
a session holding a stale nonce pops it and forwards it to the verifier. -/
theorem C10_witness :
    (OIDCAuthCallbackView.get cfgNonceOff verifierActive cpGood
        sessionBoth).session.oidc_auth_nonce = none
    ∧ (∀ v, (OIDCAuthCallbackView.get cfgNonceOff verifierActive cpGood
          sessionBoth).verifierCalledWith = some v →
        v = sessionBoth.oidc_auth_nonce)
    ∧ (cpGood.code.isSome = true →
        cpGood.state = sessionBoth.oidc_auth_state →
        truthy sessionBoth.oidc_auth_state = true →
        (OIDCAuthCallbackView.get cfgNonceOff verifierActive cpGood
            sessionBoth).verifierCalledWith
          = some sessionBoth.oidc_auth_nonce) :=
  C10_stale_nonce_popped_and_forwarded cfgNonceOff verifierActive cpGood
    sessionBoth (by decide)

end OidcRp
